import Mathlib

/-!
Verification of the `pgsqlmgr` PostgreSQL manager against its specification.

The Python sources (`src/pgsqlmgr/sync.py`, `config.py`, `db.py`) are shallowly
embedded below.  External processes (`subprocess.run`) are modelled by an
environment that supplies, for each invocation the code performs, either a
completed result (return code, stdout, stderr) or a raised exception; every
embedded function records the invocations it attempted, together with the
`timeout=` argument passed to `subprocess.run`, in a trace.  Python exceptions
are modelled by the `PyError` type and `try/except` blocks by matching on the
outcome, in the order of the `except` clauses of the source.
-/

namespace Pgsqlmgr

/-- Whitespace stripped by Python `str.strip()` (ASCII subset; the host names,
database names and command outputs handled by the tool are ASCII). -/
def isPySpace (c : Char) : Bool :=
  c = ' ' || c = '\t' || c = '\n' || c = '\r' || c = Char.ofNat 11 || c = Char.ofNat 12

/-- Python `str.strip()`: remove leading and trailing whitespace. -/
def pyStrip (s : String) : String :=
  String.mk (((s.data.dropWhile isPySpace).reverse.dropWhile isPySpace).reverse)

/-- ASCII lowercasing of one character, as Python `str.lower()` acts on ASCII. -/
def asciiLowerChar (c : Char) : Char :=
  if 'A' ≤ c ∧ c ≤ 'Z' then Char.ofNat (c.toNat + 32) else c

/-- Python `str.lower()` (ASCII subset: the OS identifiers and database names
compared by the tool are ASCII, and non-ASCII characters never lowercase to
the ASCII keywords the code compares against). -/
def pyLower (s : String) : String := String.mk (s.data.map asciiLowerChar)

/-- Does the second list occur as a leading segment of the first? -/
def leadsChars : List Char → List Char → Bool
  | [], _ => true
  | _ :: _, [] => false
  | a :: as, b :: bs => a == b && leadsChars as bs

/-- Does the pattern occur contiguously anywhere in the list? -/
def hasSubChars : List Char → List Char → Bool
  | [], pat => pat.isEmpty
  | c :: rest, pat => leadsChars pat (c :: rest) || hasSubChars rest pat

/-- Python `pat in s` on strings: contiguous substring test. -/
def strContainsSub (s pat : String) : Bool := hasSubChars s.data pat.data

/-- Python `s.startswith(pre)`. -/
def pyStartsWith (s pre : String) : Bool := leadsChars pre.data s.data

/-- Split a character list at every occurrence of the separator, keeping empty
groups, as Python `str.split(sep)` does for a one-character separator. -/
def splitOnChar (sep : Char) : List Char → List (List Char)
  | [] => [[]]
  | c :: rest =>
    match splitOnChar sep rest with
    | [] => []
    | g :: gs => if c == sep then [] :: g :: gs else (c :: g) :: gs

/-- Python `s.split(sep)` for a one-character separator (`'|'` and `'\n'` are
the only separators the code uses). -/
def pySplit (s : String) (sep : Char) : List String := (splitOnChar sep s.data).map String.mk

/-- A Python exception, as raised and caught by the embedded code.  The payload
is the message produced by `str(e)`. -/
inductive PyError where
  | attributeError (msg : String)
  | valueError (msg : String)
  | timeoutExpired (msg : String)
  | fileNotFound (msg : String)
  | other (msg : String)
deriving DecidableEq, Repr

/-- Python `str(e)` for an exception: its message. -/
def PyError.str : PyError → String
  | .attributeError m => m
  | .valueError m => m
  | .timeoutExpired m => m
  | .fileNotFound m => m
  | .other m => m

/-- The fields of a completed `subprocess.run` result that the code inspects. -/
structure CmdResult where
  returncode : Int
  stdout : String := ""
  stderr : String := ""
deriving DecidableEq, Repr

/-- Outcome of one `subprocess.run` call: it either completed (with any return
code) or raised an exception (`subprocess.TimeoutExpired`, `FileNotFoundError`,
...). -/
inductive RunOutcome where
  | completed (r : CmdResult)
  | raised (e : PyError)
deriving DecidableEq, Repr

/-- Record of one attempted `subprocess.run` call: which command, the value of
its `timeout=` argument (in seconds), and how it turned out. -/
structure Invocation where
  cmdName : String
  timeoutSeconds : Nat
  outcome : RunOutcome
deriving DecidableEq, Repr

/-- Did this invocation raise `subprocess.TimeoutExpired`? -/
def Invocation.timedOut (inv : Invocation) : Bool :=
  match inv.outcome with
  | .raised (.timeoutExpired _) => true
  | _ => false

/-- Result of one sync step: the `(success, message)` pair the Python function
returns, together with the external commands it attempted. -/
structure StepOut where
  result : Bool × String
  trace : List Invocation
deriving DecidableEq, Repr

/-- A Python attribute value, for modelling `getattr`-style access. -/
inductive PyValue where
  | vNone
  | vStr (s : String)
  | vNat (n : Nat)
deriving DecidableEq, Repr

def optStrValue : Option String → PyValue
  | some s => .vStr s
  | none => .vNone

/-- Model of `LocalHost` from `config.py` (lines 26-41).  Its pydantic fields, inherited
from `BaseHostConfig`, are exactly `host`, `port`, `superuser`, `database` and
`description`, plus the literal `type` discriminator.  There is no `password`
field anywhere in the model. -/
structure LocalHost where
  host : String := "localhost"
  port : Nat := 5432
  superuser : String
  database : Option String := none
  description : Option String := none
deriving DecidableEq, Repr

/-- Model of `SSHHost` from `config.py` (lines 43-67): the `BaseHostConfig` fields plus
the `ssh_config` shortcut name. -/
structure SSHHost where
  host : String := "localhost"
  port : Nat := 5432
  superuser : String
  database : Option String := none
  description : Option String := none
  ssh_config : String
deriving DecidableEq, Repr

/-- Python attribute access on a `LocalHost`.  A pydantic `BaseModel` raises
`AttributeError` for any attribute that is not a declared field (extra
constructor keywords are ignored, not stored), so only the six declared fields
resolve. -/
def LocalHost.getattr (h : LocalHost) (attr : String) : Except PyError PyValue :=
  match attr with
  | "type" => .ok (.vStr "local")
  | "host" => .ok (.vStr h.host)
  | "port" => .ok (.vNat h.port)
  | "superuser" => .ok (.vStr h.superuser)
  | "database" => .ok (optStrValue h.database)
  | "description" => .ok (optStrValue h.description)
  | _ => .error (.attributeError ("'LocalHost' object has no attribute '" ++ attr ++ "'"))

/-- A resolved host descriptor (`HostConfig = Union[LocalHost, SSHHost,
CloudHost]` in `config.py`).  Cloud hosts carry no data used by the claims. -/
inductive HostConfig where
  | localHost (h : LocalHost)
  | sshHost (h : SSHHost)
  | cloudHost
deriving DecidableEq, Repr

/-! ## Sync step functions (`sync.py`) -/

/-- Embedding of `DatabaseSyncManager._create_local_dump` (`sync.py` lines 160-213).  The
command list is built, then `self.source_config.password` is read to decide
whether to set `PGPASSWORD`; only then is `pg_dump` executed with
`timeout=300`.  The `except` clauses are, in order, `TimeoutExpired`,
`FileNotFoundError` and `Exception`. -/
def create_local_dump (src : LocalHost) (database_name dump_file : String)
    (data_only schema_only : Bool) (pg_dump : RunOutcome) : StepOut :=
  match src.getattr "password" with
  | .error e =>
    { result := (false, "Error creating dump: " ++ e.str), trace := [] }
  | .ok _ =>
    let inv : Invocation := ⟨"pg_dump", 300, pg_dump⟩
    match pg_dump with
    | .completed r =>
      if r.returncode = 0 then
        { result := (true, "Database dump created: " ++ dump_file), trace := [inv] }
      else
        { result := (false, "pg_dump failed: " ++ r.stderr), trace := [inv] }
    | .raised (.timeoutExpired _) =>
      { result := (false, "Database dump timed out"), trace := [inv] }
    | .raised (.fileNotFound _) =>
      { result := (false, "pg_dump command not found. Ensure PostgreSQL client tools are installed."),
        trace := [inv] }
    | .raised e =>
      { result := (false, "Error creating dump: " ++ e.str), trace := [inv] }

/-- Environment for `_create_ssh_dump`: the three remote commands it runs. -/
structure SshDumpEnv where
  ssh_pg_dump : RunOutcome
  scp_download : RunOutcome
  ssh_rm : RunOutcome
deriving DecidableEq, Repr

/-- Embedding of `DatabaseSyncManager._create_ssh_dump` (`sync.py` lines 215-297): remote
`pg_dump` over ssh (`timeout=300`), `scp` download (`timeout=120`), then
best-effort `rm -f` of the remote file (`timeout=30`, result ignored unless it
raises).  `except` clauses: `TimeoutExpired`, then `Exception`. -/
def create_ssh_dump (src : SSHHost) (database_name dump_file : String)
    (data_only schema_only : Bool) (env : SshDumpEnv) : StepOut :=
  let inv1 : Invocation := ⟨"ssh pg_dump", 300, env.ssh_pg_dump⟩
  match env.ssh_pg_dump with
  | .raised (.timeoutExpired _) =>
    { result := (false, "SSH database dump timed out"), trace := [inv1] }
  | .raised e =>
    { result := (false, "Error creating SSH dump: " ++ e.str), trace := [inv1] }
  | .completed r1 =>
    if r1.returncode ≠ 0 then
      { result := (false, "SSH pg_dump failed: " ++ r1.stderr), trace := [inv1] }
    else
      let inv2 : Invocation := ⟨"scp download", 120, env.scp_download⟩
      match env.scp_download with
      | .raised (.timeoutExpired _) =>
        { result := (false, "SSH database dump timed out"), trace := [inv1, inv2] }
      | .raised e =>
        { result := (false, "Error creating SSH dump: " ++ e.str), trace := [inv1, inv2] }
      | .completed r2 =>
        if r2.returncode ≠ 0 then
          { result := (false, "SCP download failed: " ++ r2.stderr), trace := [inv1, inv2] }
        else
          let inv3 : Invocation := ⟨"ssh rm", 30, env.ssh_rm⟩
          match env.ssh_rm with
          | .raised (.timeoutExpired _) =>
            { result := (false, "SSH database dump timed out"), trace := [inv1, inv2, inv3] }
          | .raised e =>
            { result := (false, "Error creating SSH dump: " ++ e.str), trace := [inv1, inv2, inv3] }
          | .completed _ =>
            { result := (true, "SSH database dump created and downloaded: " ++ dump_file),
              trace := [inv1, inv2, inv3] }

/-- Embedding of `DatabaseSyncManager._transfer_dump_file` (`sync.py` lines 299-341):
nothing to do local-to-local; `scp` upload with `timeout=120` when the
destination is an SSH host; otherwise the file already arrived with the source
download. -/
def transfer_dump_file (source destination : HostConfig) (dump_file : String)
    (scp_upload : RunOutcome) : StepOut :=
  match source, destination with
  | .localHost _, .localHost _ =>
    { result := (true, "No file transfer needed for local-to-local sync"), trace := [] }
  | _, .sshHost dst =>
    let inv : Invocation := ⟨"scp upload", 120, scp_upload⟩
    match scp_upload with
    | .raised (.timeoutExpired _) =>
      { result := (false, "File upload timed out"), trace := [inv] }
    | .raised e =>
      { result := (false, "Error uploading file: " ++ e.str), trace := [inv] }
    | .completed r =>
      if r.returncode ≠ 0 then
        { result := (false, "SCP upload failed: " ++ r.stderr), trace := [inv] }
      else
        { result := (true, "Dump file uploaded to " ++ dst.ssh_config), trace := [inv] }
  | _, _ =>
    { result := (true, "File transfer handled by source SSH download"), trace := [] }

/-- Environment for `_restore_local_dump`: the three local client commands. -/
structure LocalRestoreEnv where
  dropdb : RunOutcome
  createdb : RunOutcome
  psql : RunOutcome
deriving DecidableEq, Repr

/-- The final `psql --file` replay of `_restore_local_dump` (`sync.py` lines
403-425), `timeout=300`; success is reported exactly when it returns 0. -/
def restore_local_psql (database_name : String) (env : LocalRestoreEnv)
    (tr : List Invocation) : StepOut :=
  let inv : Invocation := ⟨"psql", 300, env.psql⟩
  match env.psql with
  | .raised (.timeoutExpired _) =>
    { result := (false, "Database restore timed out"), trace := tr ++ [inv] }
  | .raised (.fileNotFound m) =>
    { result := (false, "PostgreSQL command not found: " ++ m), trace := tr ++ [inv] }
  | .raised e =>
    { result := (false, "Error restoring dump: " ++ e.str), trace := tr ++ [inv] }
  | .completed r =>
    if r.returncode = 0 then
      { result := (true, "Database '" ++ database_name ++ "' restored successfully"),
        trace := tr ++ [inv] }
    else
      { result := (false, "psql restore failed: " ++ r.stderr), trace := tr ++ [inv] }

/-- The `createdb` stage of `_restore_local_dump` (`sync.py` lines 383-401),
`timeout=30`; a non-zero return whose stderr mentions `already exists` is
tolerated. -/
def restore_local_createdb (database_name : String) (env : LocalRestoreEnv)
    (tr : List Invocation) : StepOut :=
  let inv : Invocation := ⟨"createdb", 30, env.createdb⟩
  match env.createdb with
  | .raised (.timeoutExpired _) =>
    { result := (false, "Database restore timed out"), trace := tr ++ [inv] }
  | .raised (.fileNotFound m) =>
    { result := (false, "PostgreSQL command not found: " ++ m), trace := tr ++ [inv] }
  | .raised e =>
    { result := (false, "Error restoring dump: " ++ e.str), trace := tr ++ [inv] }
  | .completed r =>
    if r.returncode ≠ 0 && !(strContainsSub r.stderr "already exists") then
      { result := (false, "Failed to create database: " ++ r.stderr), trace := tr ++ [inv] }
    else
      restore_local_psql database_name env (tr ++ [inv])

/-- Embedding of `DatabaseSyncManager._restore_local_dump` (`sync.py` lines 357-432).  It
first reads `self.destination_config.password` to decide whether to set
`PGPASSWORD`, then optionally `dropdb --if-exists` (`timeout=30`, result
ignored), then `createdb`, then `psql --file`.  `except` clauses:
`TimeoutExpired`, `FileNotFoundError`, `Exception`. -/
def restore_local_dump (dst : LocalHost) (database_name dump_file : String)
    (drop_existing : Bool) (env : LocalRestoreEnv) : StepOut :=
  match dst.getattr "password" with
  | .error e =>
    { result := (false, "Error restoring dump: " ++ e.str), trace := [] }
  | .ok _ =>
    if drop_existing then
      let inv : Invocation := ⟨"dropdb", 30, env.dropdb⟩
      match env.dropdb with
      | .raised (.timeoutExpired _) =>
        { result := (false, "Database restore timed out"), trace := [inv] }
      | .raised (.fileNotFound m) =>
        { result := (false, "PostgreSQL command not found: " ++ m), trace := [inv] }
      | .raised e =>
        { result := (false, "Error restoring dump: " ++ e.str), trace := [inv] }
      | .completed _ =>
        restore_local_createdb database_name env [inv]
    else
      restore_local_createdb database_name env []

/-- Environment for `_restore_ssh_dump`: its four remote commands. -/
structure SshRestoreEnv where
  ssh_dropdb : RunOutcome
  ssh_createdb : RunOutcome
  ssh_psql : RunOutcome
  ssh_rm : RunOutcome
deriving DecidableEq, Repr

/-- The `psql` replay and remote-file cleanup of `_restore_ssh_dump`
(`sync.py` lines 479-506): `ssh ... psql` with `timeout=300`, then `rm -f`
(`timeout=30`, result ignored unless it raises) and only afterwards the check
of the psql return code. -/
def restore_ssh_psql (database_name : String) (env : SshRestoreEnv)
    (tr : List Invocation) : StepOut :=
  let invP : Invocation := ⟨"ssh psql", 300, env.ssh_psql⟩
  match env.ssh_psql with
  | .raised (.timeoutExpired _) =>
    { result := (false, "SSH database restore timed out (this may indicate authentication or connection issues)"),
      trace := tr ++ [invP] }
  | .raised e =>
    { result := (false, "Error restoring SSH dump: " ++ e.str), trace := tr ++ [invP] }
  | .completed r =>
    let invRm : Invocation := ⟨"ssh rm", 30, env.ssh_rm⟩
    match env.ssh_rm with
    | .raised (.timeoutExpired _) =>
      { result := (false, "SSH database restore timed out (this may indicate authentication or connection issues)"),
        trace := tr ++ [invP, invRm] }
    | .raised e =>
      { result := (false, "Error restoring SSH dump: " ++ e.str), trace := tr ++ [invP, invRm] }
    | .completed _ =>
      if r.returncode = 0 then
        { result := (true, "Database '" ++ database_name ++ "' restored successfully via SSH"),
          trace := tr ++ [invP, invRm] }
      else
        { result := (false, "SSH psql restore failed: " ++ r.stderr), trace := tr ++ [invP, invRm] }

/-- The `createdb` stage of `_restore_ssh_dump` (`sync.py` lines 458-477),
`timeout=30`, with the redundant nested `already exists` tolerance check of the
source (stderr, then lowercased stderr). -/
def restore_ssh_createdb (database_name : String) (env : SshRestoreEnv)
    (tr : List Invocation) : StepOut :=
  let inv : Invocation := ⟨"ssh createdb", 30, env.ssh_createdb⟩
  match env.ssh_createdb with
  | .raised (.timeoutExpired _) =>
    { result := (false, "SSH database restore timed out (this may indicate authentication or connection issues)"),
      trace := tr ++ [inv] }
  | .raised e =>
    { result := (false, "Error restoring SSH dump: " ++ e.str), trace := tr ++ [inv] }
  | .completed r =>
    if r.returncode ≠ 0 && !(strContainsSub r.stderr "already exists") then
      if !(strContainsSub (pyLower r.stderr) "already exists") then
        { result := (false, "Failed to create database: " ++ r.stderr), trace := tr ++ [inv] }
      else
        restore_ssh_psql database_name env (tr ++ [inv])
    else
      restore_ssh_psql database_name env (tr ++ [inv])

/-- Embedding of `DatabaseSyncManager._restore_ssh_dump` (`sync.py` lines 434-511):
optional `dropdb --if-exists` over ssh (`timeout=30`, result ignored), then
`createdb`, `psql`, remote cleanup.  `except` clauses: `TimeoutExpired`, then
`Exception`. -/
def restore_ssh_dump (dst : SSHHost) (database_name dump_file : String)
    (drop_existing : Bool) (env : SshRestoreEnv) : StepOut :=
  if drop_existing then
    let inv : Invocation := ⟨"ssh dropdb", 30, env.ssh_dropdb⟩
    match env.ssh_dropdb with
    | .raised (.timeoutExpired _) =>
      { result := (false, "SSH database restore timed out (this may indicate authentication or connection issues)"),
        trace := [inv] }
    | .raised e =>
      { result := (false, "Error restoring SSH dump: " ++ e.str), trace := [inv] }
    | .completed _ =>
      restore_ssh_createdb database_name env [inv]
  else
    restore_ssh_createdb database_name env []

/-! ## `DatabaseSyncManager.sync_database` orchestration (`sync.py` lines 48-134)

The sub-steps (`_check_postgresql_availability`, `tempfile.mkdtemp`,
`_create_dump`, `_transfer_dump_file`, `_restore_dump`) are modelled by their
outcomes: each call either returns its `(success, message)` pair or raises an
exception, which the enclosing `try/except Exception` of `sync_database`
catches. -/

structure SyncEnv where
  check_source : Except PyError (Bool × String)
  check_dest : Except PyError (Bool × String)
  mkdtemp : Except PyError String
  create_dump : Except PyError (Bool × String)
  transfer : Except PyError (Bool × String)
  restore : Except PyError (Bool × String)
  source_is_ssh : Bool
  dest_is_ssh : Bool
deriving Repr

/-- The restore tail of the `try` block (`sync.py` lines 114-130): restore,
then cleanup of the temporary directory, then the success return. -/
def sync_restore_step (env : SyncEnv) (database_name : String) (base : List String) :
    Except (PyError × List String) ((Bool × String) × List String) :=
  match env.restore with
  | .error e => .error (e, base ++ ["restore"])
  | .ok (okR, msgR) =>
    if !okR then
      .ok ((false, "Restore failed: " ++ msgR), base ++ ["restore"])
    else
      .ok ((true, "Database '" ++ database_name ++ "' synced successfully"),
        base ++ ["restore", "cleanup"])

/-- The `try` block of `sync_database` (`sync.py` lines 69-130).  The returned
list names the workflow steps that were started, in execution order; an
`.error` outcome is an exception escaping the block, paired with the steps
started before it. -/
def sync_body (env : SyncEnv) (database_name : String) :
    Except (PyError × List String) ((Bool × String) × List String) :=
  match env.check_source with
  | .error e => .error (e, ["check_source"])
  | .ok (ok1, msg1) =>
    if !ok1 then
      .ok ((false, "Source PostgreSQL check failed: " ++ msg1), ["check_source"])
    else
      match env.check_dest with
      | .error e => .error (e, ["check_source", "check_dest"])
      | .ok (ok2, msg2) =>
        if !ok2 then
          .ok ((false, "Destination PostgreSQL check failed: " ++ msg2),
            ["check_source", "check_dest"])
        else
          match env.mkdtemp with
          | .error e => .error (e, ["check_source", "check_dest"])
          | .ok _ =>
            match env.create_dump with
            | .error e => .error (e, ["check_source", "check_dest", "dump"])
            | .ok (okD, msgD) =>
              if !okD then
                .ok ((false, "Dump creation failed: " ++ msgD),
                  ["check_source", "check_dest", "dump"])
              else
                if env.source_is_ssh || env.dest_is_ssh then
                  match env.transfer with
                  | .error e => .error (e, ["check_source", "check_dest", "dump", "transfer"])
                  | .ok (okT, msgT) =>
                    if !okT then
                      .ok ((false, "File transfer failed: " ++ msgT),
                        ["check_source", "check_dest", "dump", "transfer"])
                    else
                      sync_restore_step env database_name
                        ["check_source", "check_dest", "dump", "transfer"]
                else
                  sync_restore_step env database_name ["check_source", "check_dest", "dump"]

/-- Embedding of `DatabaseSyncManager.sync_database` (`sync.py` lines 48-134): the `try`
block, with `except Exception as e: self._cleanup(); return False, f"Sync
failed with error: {e}"`. -/
def sync_database (env : SyncEnv) (database_name : String) : (Bool × String) × List String :=
  match sync_body env database_name with
  | .ok out => out
  | .error (e, tr) => ((false, "Sync failed with error: " ++ e.str), tr ++ ["cleanup"])

/-! ## `_check_postgresql_availability` (`sync.py` lines 621-705)

The calls it dispatches (`check_postgresql_installation`,
`check_service_status`, `_verify_postgresql_authentication`,
`_setup_postgresql_user`, `start_service`, `install_postgresql`, and the
interactive `Confirm.ask` prompts) are modelled by their outcomes; `auto_install
or Confirm.ask(...)` short-circuits, so the prompt answers only matter when
`auto_install` is false. -/

structure AvailabilityEnv where
  installation : Bool × String
  service : Bool × String
  auth : Bool × String
  setup_user : Bool × String
  start_service : Bool × String
  install : Bool × String
  confirm_setup_user : Bool
  confirm_start : Bool
  confirm_install : Bool
deriving DecidableEq, Repr

/-- Embedding of `_check_postgresql_availability`, returning the `(available, message)` pair
and the list of remediation actions it attempted, in order. -/
def check_postgresql_availability (is_ssh_host : Bool) (host_type : String)
    (auto_install : Bool) (env : AvailabilityEnv) : (Bool × String) × List String :=
  if env.installation.1 then
    if env.service.1 then
      if is_ssh_host && !env.auth.1 then
        if auto_install || env.confirm_setup_user then
          if env.setup_user.1 then
            ((true, "PostgreSQL ready with user authentication on " ++ host_type), ["setup_user"])
          else
            ((false, "Failed to setup user authentication: " ++ env.setup_user.2), ["setup_user"])
        else
          ((false, "PostgreSQL user authentication not configured on " ++ host_type ++ " host"), [])
      else
        ((true, "PostgreSQL ready on " ++ host_type), [])
    else
      if auto_install || env.confirm_start then
        if env.start_service.1 then
          ((true, "PostgreSQL service started on " ++ host_type), ["start_service"])
        else
          ((false, "Failed to start PostgreSQL service: " ++ env.start_service.2), ["start_service"])
      else
        ((false, "PostgreSQL service not running on " ++ host_type ++ " host"), [])
  else
    if auto_install || env.confirm_install then
      if env.install.1 then
        if env.start_service.1 then
          ((true, "PostgreSQL installed and started on " ++ host_type), ["install", "start_service"])
        else
          ((false, "PostgreSQL installed but failed to start service: " ++ env.start_service.2),
            ["install", "start_service"])
      else
        ((false, "Failed to install PostgreSQL: " ++ env.install.2), ["install"])
    else
      ((false, "PostgreSQL not available on " ++ host_type ++ " host"), [])

/-! ## Database listing (`sync.py` lines 522-619) -/

/-- The parsing loop shared by `_list_local_databases` and
`_list_ssh_databases` (`sync.py` lines 564-570 and 604-610): for each line of
`result.stdout.strip().split('\n')`, keep the stripped field before the first
`|` unless the line is empty or has no `|`, or the name is empty, starts with
`template`, or equals `postgres`. -/
def collect_db_names : List String → List String
  | [] => []
  | line :: rest =>
    if line ≠ "" && strContainsSub line "|" then
      let db_name := pyStrip ((pySplit line '|').headD "")
      if db_name ≠ "" && !pyStartsWith db_name "template" && db_name ≠ "postgres" then
        db_name :: collect_db_names rest
      else
        collect_db_names rest
    else
      collect_db_names rest

/-- Embedding of `_list_local_databases` (`sync.py` lines 536-579): builds the `psql --list`
command, reads `host_config.password` for `PGPASSWORD`, runs psql with
`timeout=30` and parses the pipe-delimited output. -/
def list_local_databases (h : LocalHost) (psql : RunOutcome) : Bool × List String × String :=
  match h.getattr "password" with
  | .error e => (false, [], "Error listing databases: " ++ e.str)
  | .ok _ =>
    match psql with
    | .completed r =>
      if r.returncode = 0 then
        (true, collect_db_names (pySplit (pyStrip r.stdout) '\n'), "")
      else
        (false, [], "Failed to list databases: " ++ r.stderr)
    | .raised (.timeoutExpired _) => (false, [], "Database list operation timed out")
    | .raised e => (false, [], "Error listing databases: " ++ e.str)

/-- Embedding of `_list_ssh_databases` (`sync.py` lines 581-619): `ssh ... psql --list` with
`timeout=30`, same parsing. -/
def list_ssh_databases (h : SSHHost) (psql : RunOutcome) : Bool × List String × String :=
  match psql with
  | .completed r =>
    if r.returncode = 0 then
      (true, collect_db_names (pySplit (pyStrip r.stdout) '\n'), "")
    else
      (false, [], "Failed to list databases via SSH: " ++ r.stderr)
  | .raised (.timeoutExpired _) => (false, [], "SSH database list operation timed out")
  | .raised e => (false, [], "Error listing databases via SSH: " ++ e.str)

/-- Embedding of `DatabaseSyncManager.list_databases` (`sync.py` lines 522-534). -/
def list_databases (cfg : HostConfig) (psql : RunOutcome) : Bool × List String × String :=
  match cfg with
  | .localHost h => list_local_databases h psql
  | .sshHost h => list_ssh_databases h psql
  | .cloudHost => (false, [], "Unsupported host type")

/-! ## Configuration validation (`config.py` lines 87-161) -/

/-- One character of the host-name character class `[a-zA-Z0-9_-]` of
`validate_host_names` (`config.py` line 105). -/
def isHostNameChar (c : Char) : Bool :=
  ('a' ≤ c && c ≤ 'z') || ('A' ≤ c && c ≤ 'Z') || ('0' ≤ c && c ≤ '9') || c = '_' || c = '-'

/-- Characters covered by one `[a-zA-Z0-9_-]+` run: a nonempty list with every
character in the class. -/
def idClassFullMatch (cs : List Char) : Bool :=
  !cs.isEmpty && cs.all isHostNameChar

/-- Removal of a single trailing newline from a name, if present: the part of
the string that `[a-zA-Z0-9_-]+` must cover when `$` matches before a newline
at the end. -/
def strip_trailing_newline (name : String) : String :=
  match name.data.getLast? with
  | some c => if c = '\n' then String.mk name.data.dropLast else name
  | none => name

/-- The test `re.match(r'^[a-zA-Z0-9_-]+$', host_name)` (`config.py` line 105).
Python's `$` matches at the end of the string or just before a newline at the
end of the string, so the pattern accepts a nonempty all-in-class name,
optionally followed by exactly one trailing newline. -/
def hostNameMatchesPattern (name : String) : Bool :=
  idClassFullMatch name.data ||
  (match name.data.getLast? with
   | some c => c == '\n' && idClassFullMatch name.data.dropLast
   | none => false)

/-- The loop of `validate_host_names` (`config.py` lines 100-109): walk the
host names in order; the first offending name raises `ValueError` (pattern
check first, then the 50-character length check). -/
def first_host_name_error : List String → Option String
  | [] => none
  | n :: rest =>
    if !hostNameMatchesPattern n then
      some ("Host name '" ++ n ++
        "' contains invalid characters. Use only letters, numbers, underscore, and dash.")
    else if n.length > 50 then
      some ("Host name '" ++ n ++ "' is too long (max 50 characters)")
    else
      first_host_name_error rest

/-- Validation errors produced by constructing `PostgreSQLManagerConfig` from
a hosts mapping with the given keys (`config.py` lines 87-109).  The two
`field_validator('hosts')` functions run in declaration order and stop at the
first raised `ValueError`; pydantic reports it as a single error whose message
is prefixed with `Value error, `. -/
def pydantic_hosts_errors (hostNames : List String) : List String :=
  if hostNames.isEmpty then
    ["Value error, At least one host must be configured"]
  else
    match first_host_name_error hostNames with
    | some m => ["Value error, " ++ m]
    | none => []

/-- Outcome of reading and YAML-parsing the configuration file, i.e. of
`config.py` lines 127-149.  `parsed` abstracts a successfully loaded YAML
mapping whose per-host pydantic validation passed, keeping the host names (the
only data the hosts-level validators inspect). -/
inductive ConfigSource where
  | missing
  | permissionDenied
  | yamlError (msg : String)
  | readError (msg : String)
  | emptyYaml
  | parsed (hostNames : List String)
deriving DecidableEq, Repr

/-- Embedding of `validate_config_file` (`config.py` lines 112-161): collect errors for a
missing/unreadable/malformed/empty file, otherwise validate against the
pydantic model (`field_path` is `hosts` for the hosts validators) and finally
return `(len(errors) == 0, errors)`. -/
def validate_config_file (config_path : String) (src : ConfigSource) : Bool × List String :=
  match src with
  | .missing => (false, ["Configuration file not found: " ++ config_path])
  | .permissionDenied => (false, ["Permission denied reading configuration file: " ++ config_path])
  | .yamlError m => (false, ["Invalid YAML syntax: " ++ m])
  | .readError m => (false, ["Error reading configuration file: " ++ m])
  | .emptyYaml => (false, ["Configuration file is empty"])
  | .parsed hostNames =>
    let errors := (pydantic_hosts_errors hostNames).map
      (fun m => "Validation error in hosts: " ++ m)
    (errors.isEmpty, errors)

/-! ## `DatabaseManager.drop_database` (`db.py` lines 140-245) -/

/-- Embedding of `_get_auth_help_message` for a local host (`db.py` lines 19-27). -/
def get_auth_help_message_local (h : LocalHost) : String :=
  "\n\n💡 Authentication Help:\nSet up PostgreSQL authentication in ~/.pgpass:\n  " ++
    h.host ++ ":" ++ toString h.port ++ ":*:" ++ h.superuser ++
    ":your_password\nThen run: chmod 600 ~/.pgpass"

/-- Embedding of `DatabaseManager._drop_local_database` (`db.py` lines 172-210): `dropdb
--if-exists` with `timeout=60`; a `does not exist` stderr counts as success;
authentication-looking failures get the `.pgpass` help appended. -/
def drop_local_database (h : LocalHost) (database_name : String) (dropdb : RunOutcome) :
    (Bool × String) × List Invocation :=
  let inv : Invocation := ⟨"dropdb", 60, dropdb⟩
  match dropdb with
  | .completed r =>
    if r.returncode = 0 then
      ((true, "Database '" ++ database_name ++ "' deleted successfully"), [inv])
    else if strContainsSub (pyLower r.stderr) "does not exist" then
      ((true, "Database '" ++ database_name ++ "' does not exist (already deleted)"), [inv])
    else
      let error_msg := "Failed to delete database: " ++ pyStrip r.stderr
      let error_msg :=
        if strContainsSub (pyLower r.stderr) "authentication failed" ||
            strContainsSub (pyLower r.stderr) "password" then
          error_msg ++ get_auth_help_message_local h
        else error_msg
      ((false, error_msg), [inv])
  | .raised (.timeoutExpired _) =>
    ((false, "Database deletion timed out for '" ++ database_name ++ "'"), [inv])
  | .raised (.fileNotFound _) =>
    ((false, "dropdb command not found. Ensure PostgreSQL client tools are installed."), [inv])
  | .raised e =>
    ((false, "Error deleting database '" ++ database_name ++ "': " ++ e.str), [inv])

/-- Embedding of `DatabaseManager._drop_ssh_database` (`db.py` lines 212-245): `ssh ...
dropdb --if-exists` with `timeout=60`. -/
def drop_ssh_database (h : SSHHost) (database_name : String) (dropdb : RunOutcome) :
    (Bool × String) × List Invocation :=
  let inv : Invocation := ⟨"ssh dropdb", 60, dropdb⟩
  match dropdb with
  | .completed r =>
    if r.returncode = 0 then
      ((true, "Database '" ++ database_name ++ "' deleted successfully via SSH"), [inv])
    else if strContainsSub (pyLower r.stderr) "does not exist" then
      ((true, "Database '" ++ database_name ++ "' does not exist on SSH host (already deleted)"),
        [inv])
    else
      ((false, "SSH dropdb failed: " ++ pyStrip r.stderr), [inv])
  | .raised (.timeoutExpired _) =>
    ((false, "SSH database deletion timed out for '" ++ database_name ++ "'"), [inv])
  | .raised e =>
    ((false, "Error deleting database '" ++ database_name ++ "' via SSH: " ++ e.str), [inv])

/-- Embedding of `DatabaseManager.drop_database` (`db.py` lines 140-170): raise `ValueError`
for an empty or all-whitespace name; strip the name; refuse the system
databases `postgres`, `template0`, `template1` (lowercased comparison) before
dispatching to the host-specific deletion. -/
def drop_database (cfg : HostConfig) (database_name : String) (dropdb : RunOutcome) :
    Except PyError ((Bool × String) × List Invocation) :=
  if database_name = "" || pyStrip database_name = "" then
    .error (.valueError "Database name cannot be empty")
  else
    let stripped := pyStrip database_name
    if pyLower stripped = "postgres" || pyLower stripped = "template0" ||
        pyLower stripped = "template1" then
      .ok ((false, "Cannot delete system database '" ++ stripped ++ "'"), [])
    else
      match cfg with
      | .localHost h => .ok (drop_local_database h stripped dropdb)
      | .sshHost h => .ok (drop_ssh_database h stripped dropdb)
      | .cloudHost => .ok ((false, "Unsupported host type for database deletion"), [])

/-! ## Per-OS installation commands (`db.py` lines 742-834) -/

/-- One entry of the per-OS table of `_get_installation_commands`: the package
manager label and the `(description, command)` pairs run over ssh. -/
structure InstallCommandSet where
  name : String
  commands : List (String × String)
deriving DecidableEq, Repr

/-- The seven-entry table of `_get_installation_commands` (`db.py` lines
767-834), looked up by `os_type.lower()` (`commands.get(os_type.lower())`). -/
def get_installation_commands (os_type : String) : Option InstallCommandSet :=
  let key := pyLower os_type
  if key = "ubuntu" then
    some ⟨"apt (Ubuntu/Debian)",
      [("Updating package list", "sudo apt update"),
       ("Installing PostgreSQL", "sudo apt install -y postgresql postgresql-contrib"),
       ("Starting PostgreSQL service", "sudo systemctl start postgresql"),
       ("Enabling PostgreSQL service", "sudo systemctl enable postgresql")]⟩
  else if key = "debian" then
    some ⟨"apt (Debian)",
      [("Updating package list", "sudo apt update"),
       ("Installing PostgreSQL", "sudo apt install -y postgresql postgresql-contrib"),
       ("Starting PostgreSQL service", "sudo systemctl start postgresql"),
       ("Enabling PostgreSQL service", "sudo systemctl enable postgresql")]⟩
  else if key = "centos" then
    some ⟨"yum (CentOS/RHEL)",
      [("Installing PostgreSQL", "sudo yum install -y postgresql-server postgresql-contrib"),
       ("Initializing database", "sudo postgresql-setup initdb"),
       ("Starting PostgreSQL service", "sudo systemctl start postgresql"),
       ("Enabling PostgreSQL service", "sudo systemctl enable postgresql")]⟩
  else if key = "rhel" then
    some ⟨"yum (Red Hat)",
      [("Installing PostgreSQL", "sudo yum install -y postgresql-server postgresql-contrib"),
       ("Initializing database", "sudo postgresql-setup initdb"),
       ("Starting PostgreSQL service", "sudo systemctl start postgresql"),
       ("Enabling PostgreSQL service", "sudo systemctl enable postgresql")]⟩
  else if key = "fedora" then
    some ⟨"dnf (Fedora)",
      [("Installing PostgreSQL", "sudo dnf install -y postgresql-server postgresql-contrib"),
       ("Initializing database", "sudo postgresql-setup --initdb"),
       ("Starting PostgreSQL service", "sudo systemctl start postgresql"),
       ("Enabling PostgreSQL service", "sudo systemctl enable postgresql")]⟩
  else if key = "macos" then
    some ⟨"Homebrew (macOS)",
      [("Installing PostgreSQL", "brew install postgresql"),
       ("Starting PostgreSQL service", "brew services start postgresql")]⟩
  else if key = "alpine" then
    some ⟨"apk (Alpine Linux)",
      [("Updating package index", "sudo apk update"),
       ("Installing PostgreSQL", "sudo apk add postgresql postgresql-contrib"),
       ("Initializing database", "sudo -u postgres initdb -D /var/lib/postgresql/data"),
       ("Starting PostgreSQL service", "sudo rc-service postgresql start"),
       ("Adding to startup", "sudo rc-update add postgresql")]⟩
  else
    none

/-- The supported OS identifiers, i.e. the keys of the table above. -/
def supported_os_ids : List String :=
  ["ubuntu", "debian", "centos", "rhel", "fedora", "macos", "alpine"]

/-- The command loop of `_install_postgresql_by_os` (`db.py` lines 752-765):
each command runs over ssh with `timeout=300` and the first non-zero return
aborts with `"{description} failed: ..."`. -/
def run_install_commands (cmds : List (String × String)) (pkg_name : String)
    (env : String → CmdResult) : (Bool × String) × List Invocation :=
  match cmds with
  | [] => ((true, "PostgreSQL installed using " ++ pkg_name), [])
  | (description, command) :: rest =>
    let r := env command
    let inv : Invocation := ⟨"ssh " ++ command, 300, .completed r⟩
    if r.returncode ≠ 0 then
      ((false, description ++ " failed: " ++ r.stderr), [inv])
    else
      let next := run_install_commands rest pkg_name env
      (next.1, inv :: next.2)

/-- Embedding of `PostgreSQLManager._install_postgresql_by_os` (`db.py` lines 742-765):
look the detected OS up in the table; with no entry, fail with the
`Unsupported operating system` message before any remote command runs. -/
def install_postgresql_by_os (os_type os_version : String) (env : String → CmdResult) :
    (Bool × String) × List Invocation :=
  match get_installation_commands os_type with
  | none => ((false, "Unsupported operating system: " ++ os_type), [])
  | some ics => run_install_commands ics.commands ics.name env

/-! ## Theorems -/

/-- C2: for every `LocalHost` configuration, the local dump step and the local
restore step of the sync workflow return `(False, an error message)` without
ever invoking `pg_dump`, `createdb` or `psql`: `LocalHost` (via
`BaseHostConfig`) defines no `password` field, so reading `config.password`
raises `AttributeError`, which the surrounding `except Exception` handler
converts into a failure result. -/
theorem local_dump_restore_password_attribute_error
    (src dst : LocalHost) (db file : String) (data_only schema_only drop_existing : Bool)
    (pg_dump : RunOutcome) (renv : LocalRestoreEnv) :
    create_local_dump src db file data_only schema_only pg_dump =
      { result := (false, "Error creating dump: 'LocalHost' object has no attribute 'password'"),
        trace := [] } ∧
    restore_local_dump dst db file drop_existing renv =
      { result := (false, "Error restoring dump: 'LocalHost' object has no attribute 'password'"),
        trace := [] } :=
  ⟨rfl, rfl⟩

/-- C4 (counter-evidence): restoring a dump to a local destination never runs
`dropdb`, `createdb` or `psql` at all.  Even in an environment where all three
commands would exit with return code 0, `_restore_local_dump` fails with the
`AttributeError` on `destination_config.password` and an empty invocation
trace, so the claimed `success iff the final psql exits 0` does not hold. -/
theorem restore_local_dump_never_runs_commands :
    restore_local_dump { superuser := "postgres" } "appdb" "/tmp/appdb.sql" true
      { dropdb := .completed ⟨0, "", ""⟩, createdb := .completed ⟨0, "", ""⟩,
        psql := .completed ⟨0, "", ""⟩ } =
      { result := (false, "Error restoring dump: 'LocalHost' object has no attribute 'password'"),
        trace := [] } :=
  rfl

/-- C1: `sync_database` runs its steps in the order source pre-flight check,
destination pre-flight check, dump creation, file transfer (only when the
source or destination is an SSH host), restore, temporary-file cleanup; a
failing step makes it return `(False, a message naming the failed step)` and
stops the workflow. -/
theorem sync_database_step_order (env : SyncEnv) (db : String)
    (c1 c2 dmp trf rst : Bool × String) (tmp : String)
    (h1 : env.check_source = .ok c1) (h2 : env.check_dest = .ok c2)
    (h3 : env.mkdtemp = .ok tmp) (h4 : env.create_dump = .ok dmp)
    (h5 : env.transfer = .ok trf) (h6 : env.restore = .ok rst) :
    (c1.1 = false →
      sync_database env db =
        ((false, "Source PostgreSQL check failed: " ++ c1.2), ["check_source"])) ∧
    (c1.1 = true → c2.1 = false →
      sync_database env db =
        ((false, "Destination PostgreSQL check failed: " ++ c2.2),
          ["check_source", "check_dest"])) ∧
    (c1.1 = true → c2.1 = true → dmp.1 = false →
      sync_database env db =
        ((false, "Dump creation failed: " ++ dmp.2), ["check_source", "check_dest", "dump"])) ∧
    ((env.source_is_ssh || env.dest_is_ssh) = true → c1.1 = true → c2.1 = true → dmp.1 = true →
      trf.1 = false →
      sync_database env db =
        ((false, "File transfer failed: " ++ trf.2),
          ["check_source", "check_dest", "dump", "transfer"])) ∧
    (c1.1 = true → c2.1 = true → dmp.1 = true →
      ((env.source_is_ssh || env.dest_is_ssh) = true → trf.1 = true) → rst.1 = false →
      sync_database env db =
        ((false, "Restore failed: " ++ rst.2),
          "check_source" :: "check_dest" :: "dump" ::
            (if env.source_is_ssh || env.dest_is_ssh then ["transfer", "restore"]
             else ["restore"]))) ∧
    (c1.1 = true → c2.1 = true → dmp.1 = true →
      ((env.source_is_ssh || env.dest_is_ssh) = true → trf.1 = true) → rst.1 = true →
      sync_database env db =
        ((true, "Database '" ++ db ++ "' synced successfully"),
          "check_source" :: "check_dest" :: "dump" ::
            (if env.source_is_ssh || env.dest_is_ssh then ["transfer", "restore", "cleanup"]
             else ["restore", "cleanup"]))) ∧
    ("transfer" ∈ (sync_database env db).2 → (env.source_is_ssh || env.dest_is_ssh) = true) := by
  obtain ⟨cs, cd, mk, cdm, tra, res, si, di⟩ := env
  dsimp only at h1 h2 h3 h4 h5 h6 ⊢
  subst h1 h2 h3 h4 h5 h6
  obtain ⟨b1, m1⟩ := c1
  obtain ⟨b2, m2⟩ := c2
  obtain ⟨bd, md⟩ := dmp
  obtain ⟨bt, mt⟩ := trf
  obtain ⟨br, mr⟩ := rst
  cases b1 <;> cases b2 <;> cases bd <;> cases bt <;> cases br <;> cases si <;> cases di <;>
    simp [sync_database, sync_body, sync_restore_step]

/-- C1 witness: a full successful local-to-SSH sync runs all six steps in
order, and a failing source check stops the workflow immediately. -/
theorem sync_database_step_order_witness :
    sync_database ⟨.ok (true, "ready"), .ok (true, "ready"), .ok "/tmp/t", .ok (true, "dumped"),
        .ok (true, "sent"), .ok (true, "restored"), false, true⟩ "app" =
      ((true, "Database 'app' synced successfully"),
        ["check_source", "check_dest", "dump", "transfer", "restore", "cleanup"]) ∧
    sync_database ⟨.ok (false, "unreachable"), .ok (true, "ready"), .ok "/tmp/t",
        .ok (true, "dumped"), .ok (true, "sent"), .ok (true, "restored"), false, true⟩ "app" =
      ((false, "Source PostgreSQL check failed: unreachable"), ["check_source"]) := by
  constructor
  · have h := sync_database_step_order
      ⟨.ok (true, "ready"), .ok (true, "ready"), .ok "/tmp/t", .ok (true, "dumped"),
        .ok (true, "sent"), .ok (true, "restored"), false, true⟩ "app"
      (true, "ready") (true, "ready") (true, "dumped") (true, "sent") (true, "restored")
      "/tmp/t" rfl rfl rfl rfl rfl rfl
    exact h.2.2.2.2.2.1 rfl rfl rfl (fun _ => rfl) rfl
  · have h := sync_database_step_order
      ⟨.ok (false, "unreachable"), .ok (true, "ready"), .ok "/tmp/t", .ok (true, "dumped"),
        .ok (true, "sent"), .ok (true, "restored"), false, true⟩ "app"
      (false, "unreachable") (true, "ready") (true, "dumped") (true, "sent") (true, "restored")
      "/tmp/t" rfl rfl rfl rfl rfl rfl
    exact h.1 rfl

/-- C10: `sync_database` never propagates an exception: whenever its `try`
block raises, the exception is caught, cleanup is attempted, and `(False, a
message beginning with `Sync failed with error`)` is returned. -/
theorem sync_database_catches_exceptions (env : SyncEnv) (db : String)
    (e : PyError) (tr : List String) (h : sync_body env db = .error (e, tr)) :
    sync_database env db = ((false, "Sync failed with error: " ++ e.str), tr ++ ["cleanup"]) ∧
    (sync_database env db).1.1 = false ∧ "cleanup" ∈ (sync_database env db).2 := by
  simp [sync_database, h]

/-- C10 witness: an exception raised by the source pre-flight check is caught,
cleanup runs, and the error message carries the exception text. -/
theorem sync_database_catches_exceptions_witness :
    sync_database ⟨.error (.other "boom"), .ok (true, "ready"), .ok "/tmp/t", .ok (true, "d"),
        .ok (true, "t"), .ok (true, "r"), false, false⟩ "app" =
      ((false, "Sync failed with error: boom"), ["check_source", "cleanup"]) :=
  (sync_database_catches_exceptions
    ⟨.error (.other "boom"), .ok (true, "ready"), .ok "/tmp/t", .ok (true, "d"),
      .ok (true, "t"), .ok (true, "r"), false, false⟩ "app" (.other "boom") ["check_source"]
    rfl).1

/-- C3: the pre-flight check succeeds when PostgreSQL is installed and running
(and, for an SSH host, sudo-based psql authentication succeeds); with
`auto_install` it attempts to start a stopped service, or to install and then
start a missing PostgreSQL, succeeding exactly when every attempted remediation
step succeeds. -/
theorem check_postgresql_availability_spec (is_ssh : Bool) (host_type : String)
    (auto_install : Bool) (env : AvailabilityEnv) :
    (env.installation.1 = true → env.service.1 = true → (is_ssh = true → env.auth.1 = true) →
      check_postgresql_availability is_ssh host_type auto_install env =
        ((true, "PostgreSQL ready on " ++ host_type), [])) ∧
    (auto_install = true → env.installation.1 = true → env.service.1 = false →
      (check_postgresql_availability is_ssh host_type auto_install env).2 = ["start_service"] ∧
      (check_postgresql_availability is_ssh host_type auto_install env).1.1 =
        env.start_service.1) ∧
    (auto_install = true → env.installation.1 = false →
      (check_postgresql_availability is_ssh host_type auto_install env).2 =
        (if env.install.1 then ["install", "start_service"] else ["install"]) ∧
      (check_postgresql_availability is_ssh host_type auto_install env).1.1 =
        (env.install.1 && env.start_service.1)) ∧
    (auto_install = true → env.installation.1 = true → env.service.1 = true → is_ssh = true →
      env.auth.1 = false →
      (check_postgresql_availability is_ssh host_type auto_install env).2 = ["setup_user"] ∧
      (check_postgresql_availability is_ssh host_type auto_install env).1.1 =
        env.setup_user.1) ∧
    ((check_postgresql_availability is_ssh host_type auto_install env).1.1 = true →
      ∀ step ∈ (check_postgresql_availability is_ssh host_type auto_install env).2,
        (step = "setup_user" → env.setup_user.1 = true) ∧
        (step = "start_service" → env.start_service.1 = true) ∧
        (step = "install" → env.install.1 = true)) := by
  refine ⟨?_, ?_, ?_, ?_, ?_⟩
  · intro hi hs hauth
    cases hssh : is_ssh with
    | false => simp [check_postgresql_availability, hi, hs, hssh]
    | true => simp [check_postgresql_availability, hi, hs, hssh, hauth hssh]
  · intro ha hi hs
    cases hst : env.start_service.1 <;>
      simp [check_postgresql_availability, hi, hs, ha, hst]
  · intro ha hi
    cases hin : env.install.1 <;> cases hst : env.start_service.1 <;>
      simp [check_postgresql_availability, hi, ha, hin, hst]
  · intro ha hi hs hssh hauth
    cases hsu : env.setup_user.1 <;>
      simp [check_postgresql_availability, hi, hs, ha, hssh, hauth, hsu]
  · intro hsucc step hstep
    unfold check_postgresql_availability at hsucc hstep
    split_ifs at hsucc hstep <;> simp_all <;>
      rcases hstep with rfl | rfl <;> simp_all

/-- C3 witness: with `auto_install`, a host with no PostgreSQL is remediated by
an install followed by a service start, and the whole check succeeds when both
succeed. -/
theorem check_postgresql_availability_spec_witness :
    (check_postgresql_availability true "destination" true
      ⟨(false, "not installed"), (false, "stopped"), (true, "auth ok"), (true, "user ok"),
        (true, "started"), (true, "installed"), false, false, false⟩).2 =
      ["install", "start_service"] ∧
    (check_postgresql_availability true "destination" true
      ⟨(false, "not installed"), (false, "stopped"), (true, "auth ok"), (true, "user ok"),
        (true, "started"), (true, "installed"), false, false, false⟩).1.1 = true := by
  have h := (check_postgresql_availability_spec true "destination" true
    ⟨(false, "not installed"), (false, "stopped"), (true, "auth ok"), (true, "user ok"),
      (true, "started"), (true, "installed"), false, false, false⟩).2.2.1 rfl rfl
  exact ⟨h.1, h.2⟩

/-- C9: `drop_database` raises `ValueError` on an empty or whitespace-only
name, and returns the `Cannot delete system database` failure, with no external
command run, when the trimmed lowercased name is `postgres`, `template0` or
`template1`. -/
theorem drop_database_guards (cfg : HostConfig) (database_name : String) (env : RunOutcome) :
    (pyStrip database_name = "" →
      drop_database cfg database_name env = .error (.valueError "Database name cannot be empty")) ∧
    (pyStrip database_name ≠ "" →
      pyLower (pyStrip database_name) ∈ ["postgres", "template0", "template1"] →
      drop_database cfg database_name env =
        .ok ((false, "Cannot delete system database '" ++ pyStrip database_name ++ "'"), [])) := by
  constructor
  · intro h
    simp [drop_database, h]
  · intro hne hmem
    have hname : ¬(database_name = "" ∨ pyStrip database_name = "") := by
      rintro (rfl | h)
      · exact hne rfl
      · exact hne h
    simp only [List.mem_cons, List.mem_singleton, List.not_mem_nil, or_false] at hmem
    rcases hmem with hm | hm | hm <;>
      simp [drop_database, hname, hm, not_or.mp hname]

/-- C9 witness: deleting ` POSTGRES ` (whitespace and case notwithstanding) is
refused without running `dropdb`, and an all-whitespace name raises
`ValueError`. -/
theorem drop_database_guards_witness :
    drop_database (.localHost { superuser := "postgres" }) " POSTGRES "
        (.completed ⟨0, "", ""⟩) =
      .ok ((false, "Cannot delete system database 'POSTGRES'"), []) ∧
    drop_database (.localHost { superuser := "postgres" }) "   " (.completed ⟨0, "", ""⟩) =
      .error (.valueError "Database name cannot be empty") := by
  constructor
  · exact (drop_database_guards (.localHost { superuser := "postgres" }) " POSTGRES "
      (.completed ⟨0, "", ""⟩)).2 (by decide) (by decide)
  · exact (drop_database_guards (.localHost { superuser := "postgres" }) "   "
      (.completed ⟨0, "", ""⟩)).1 (by decide)

/-- Every name collected by the database-list parsing loop comes from a line
containing `|`, is the stripped field before the first `|`, and is neither
`postgres` nor a `template` database. -/
theorem mem_collect_db_names {name : String} {lines : List String}
    (h : name ∈ collect_db_names lines) :
    ∃ line ∈ lines, strContainsSub line "|" = true ∧
      name = pyStrip ((pySplit line '|').headD "") ∧
      name ≠ "postgres" ∧ pyStartsWith name "template" = false := by
  induction lines with
  | nil => simp [collect_db_names] at h
  | cons l rest ih =>
    simp only [collect_db_names] at h
    split_ifs at h with h1 h2
    · simp only [decide_not, Bool.and_eq_true, decide_eq_true_eq] at h1 h2
      rcases List.mem_cons.mp h with rfl | hmem
      · exact ⟨l, List.mem_cons_self l rest, h1.2, rfl,
          by simpa using h2.2, by simpa using h2.1.2⟩
      · obtain ⟨line, hline, hrest⟩ := ih hmem
        exact ⟨line, List.mem_cons_of_mem l hline, hrest⟩
    · obtain ⟨line, hline, hrest⟩ := ih h
      exact ⟨line, List.mem_cons_of_mem l hline, hrest⟩
    · obtain ⟨line, hline, hrest⟩ := ih h
      exact ⟨line, List.mem_cons_of_mem l hline, hrest⟩

/-- C5: when `list_databases` succeeds, every returned name is the stripped
first `|`-separated field of some line of the psql output; lines without `|`
contribute nothing, and `postgres` and `template*` names are excluded. -/
theorem list_databases_parsing (cfg : HostConfig) (psql : RunOutcome)
    (names : List String) (err : String) (r : CmdResult)
    (hp : psql = .completed r)
    (h : list_databases cfg psql = (true, names, err)) :
    ∀ name ∈ names, ∃ line ∈ pySplit (pyStrip r.stdout) '\n',
      strContainsSub line "|" = true ∧
      name = pyStrip ((pySplit line '|').headD "") ∧
      name ≠ "postgres" ∧ pyStartsWith name "template" = false := by
  subst hp
  cases cfg with
  | localHost hh =>
    exfalso
    simp [list_databases, list_local_databases, LocalHost.getattr] at h
  | cloudHost =>
    exfalso
    simp [list_databases] at h
  | sshHost hh =>
    simp only [list_databases, list_ssh_databases] at h
    split_ifs at h with hrc
    · simp only [Prod.mk.injEq] at h
      obtain ⟨-, hnames, -⟩ := h
      intro name hname
      rw [← hnames] at hname
      exact mem_collect_db_names hname
    · simp at h

/-- C5 witness: parsing a concrete `psql --list` output keeps `mydb`, drops the
`postgres` and `template1` rows and the separator-free line, and the kept name
satisfies the extraction property. -/
theorem list_databases_parsing_witness :
    list_databases (.sshHost { superuser := "postgres", ssh_config := "prod" })
        (.completed ⟨0, " mydb|owner|UTF8\n postgres|owner|UTF8\n template1|owner|UTF8\n badline\n", ""⟩) =
      (true, ["mydb"], "") ∧
    ∃ line ∈ pySplit (pyStrip " mydb|owner|UTF8\n postgres|owner|UTF8\n template1|owner|UTF8\n badline\n") '\n',
      strContainsSub line "|" = true ∧
      "mydb" = pyStrip ((pySplit line '|').headD "") ∧
      "mydb" ≠ "postgres" ∧ pyStartsWith "mydb" "template" = false := by
  constructor
  · rfl
  · exact list_databases_parsing
      (.sshHost { superuser := "postgres", ssh_config := "prod" })
      (.completed ⟨0, " mydb|owner|UTF8\n postgres|owner|UTF8\n template1|owner|UTF8\n badline\n", ""⟩)
      ["mydb"] ""
      ⟨0, " mydb|owner|UTF8\n postgres|owner|UTF8\n template1|owner|UTF8\n badline\n", ""⟩
      rfl rfl "mydb" (by simp)

/-- A list containing a character outside the host-name class fails the
`all` check. -/
theorem all_isHostNameChar_eq_false {cs : List Char} {c : Char} (hc : c ∈ cs)
    (hbad : isHostNameChar c = false) : cs.all isHostNameChar = false := by
  rw [Bool.eq_false_iff]
  intro hall
  rw [List.all_eq_true] at hall
  have := hall c hc
  rw [hbad] at this
  exact Bool.false_ne_true this

/-- A name with an out-of-class character anywhere outside a single trailing
newline fails the `re.match(r'^[a-zA-Z0-9_-]+$')` test. -/
theorem hostNameMatchesPattern_eq_false_of_bad_char {n : String} {c : Char}
    (hc : c ∈ (strip_trailing_newline n).data) (hbad : isHostNameChar c = false) :
    hostNameMatchesPattern n = false := by
  simp only [strip_trailing_newline] at hc
  cases hl : n.data.getLast? with
  | none =>
    rw [hl] at hc
    dsimp only at hc
    have hnil : n.data = [] := by
      cases hnd : n.data with
      | nil => rfl
      | cons a t => rw [hnd] at hl; simp at hl
    exact absurd hc (by simp [hnil])
  | some d =>
    rw [hl] at hc
    dsimp only at hc
    by_cases hd : d = '\n'
    · rw [if_pos hd] at hc
      have hc' : c ∈ n.data.dropLast := hc
      simp [hostNameMatchesPattern, idClassFullMatch, hl, hd,
        all_isHostNameChar_eq_false (List.mem_of_mem_dropLast hc') hbad,
        all_isHostNameChar_eq_false hc' hbad]
    · rw [if_neg hd] at hc
      simp [hostNameMatchesPattern, idClassFullMatch, hl, hd,
        all_isHostNameChar_eq_false hc hbad]

/-- A hosts mapping containing a name that fails the pattern through an
out-of-class character (outside the tolerated single trailing newline), or one
longer than 50 characters, makes the host-name validator loop report an
error. -/
theorem first_host_name_error_ne_none {hostNames : List String}
    (h : ∃ n ∈ hostNames,
      (∃ c ∈ (strip_trailing_newline n).data, isHostNameChar c = false) ∨ n.length > 50) :
    first_host_name_error hostNames ≠ none := by
  induction hostNames with
  | nil => simp at h
  | cons n rest ih =>
    simp only [first_host_name_error]
    split_ifs with h1 h2
    · simp
    · simp
    · apply ih
      obtain ⟨m, hm, hbad⟩ := h
      rcases List.mem_cons.mp hm with rfl | hmrest
      · exfalso
        have hpat : hostNameMatchesPattern m = true := by
          revert h1
          cases hostNameMatchesPattern m <;> simp
        rcases hbad with ⟨c, hc, hcbad⟩ | hlen
        · rw [hostNameMatchesPattern_eq_false_of_bad_char hc hcbad] at hpat
          exact Bool.false_ne_true hpat
        · exact h2 hlen
      · exact ⟨m, hmrest, hbad⟩

/-- C7 (counterexample): a host name of in-class characters followed by one
newline contains a character outside letters, digits, underscore and dash, yet
`re.match(r'^[a-zA-Z0-9_-]+$', ...)` accepts it because `$` matches just
before a trailing newline, so `validate_config_file` reports the configuration
valid with an empty error list — contradicting the claim as stated. -/
theorem validate_config_file_newline_counterexample :
    (∃ c ∈ ("abc\n").data, isHostNameChar c = false) ∧
    validate_config_file "/home/u/.pgsqlmgr/config.yaml" (.parsed ["abc\n"]) = (true, []) := by
  constructor
  · exact ⟨'\n', by decide, by decide⟩
  · rfl

/-- C7 (amended): `validate_config_file` returns `is_valid = True` exactly
when the error list is empty, and a missing, unreadable, malformed or empty
file, an empty hosts mapping, a host name longer than 50 characters, or a host
name with a character outside letters, digits, underscore and dash at any
position other than a single trailing newline (which the `$` of
`re.match(r'^[a-zA-Z0-9_-]+$', ...)` tolerates) always produces `False` with
at least one error. -/
theorem validate_config_file_spec (config_path : String) (src : ConfigSource) :
    ((validate_config_file config_path src).1 = true ↔
      (validate_config_file config_path src).2 = []) ∧
    (src = .missing →
      (validate_config_file config_path src).1 = false ∧
      (validate_config_file config_path src).2 ≠ []) ∧
    (src = .permissionDenied →
      (validate_config_file config_path src).1 = false ∧
      (validate_config_file config_path src).2 ≠ []) ∧
    (∀ m, src = .yamlError m →
      (validate_config_file config_path src).1 = false ∧
      (validate_config_file config_path src).2 ≠ []) ∧
    (∀ m, src = .readError m →
      (validate_config_file config_path src).1 = false ∧
      (validate_config_file config_path src).2 ≠ []) ∧
    (src = .emptyYaml →
      (validate_config_file config_path src).1 = false ∧
      (validate_config_file config_path src).2 ≠ []) ∧
    (∀ hostNames, src = .parsed hostNames →
      (hostNames = [] →
        (validate_config_file config_path src).1 = false ∧
        (validate_config_file config_path src).2 ≠ []) ∧
      ((∃ n ∈ hostNames,
          (∃ c ∈ (strip_trailing_newline n).data, isHostNameChar c = false) ∨
            n.length > 50) →
        (validate_config_file config_path src).1 = false ∧
        (validate_config_file config_path src).2 ≠ [])) := by
  refine ⟨?_, ?_, ?_, ?_, ?_, ?_, ?_⟩
  · cases src <;> simp [validate_config_file, List.isEmpty_iff]
  · rintro rfl; simp [validate_config_file]
  · rintro rfl; simp [validate_config_file]
  · rintro m rfl; simp [validate_config_file]
  · rintro m rfl; simp [validate_config_file]
  · rintro rfl; simp [validate_config_file]
  · rintro hostNames rfl
    constructor
    · rintro rfl; simp [validate_config_file, pydantic_hosts_errors]
    · intro hbad
      have herr := first_host_name_error_ne_none hbad
      cases hostNames with
      | nil => simp at hbad
      | cons a t =>
        cases hfst : first_host_name_error (a :: t) with
        | none => exact absurd hfst herr
        | some m => simp [validate_config_file, pydantic_hosts_errors, hfst]

/-- C7 witness: a missing file, an empty hosts mapping, and a host name with a
space are each rejected with a nonempty error list, and the equivalence holds
at these inputs. -/
theorem validate_config_file_spec_witness :
    (validate_config_file "/home/u/.pgsqlmgr/config.yaml" .missing).1 = false ∧
    (validate_config_file "/home/u/.pgsqlmgr/config.yaml" .missing).2 ≠ [] ∧
    (validate_config_file "/home/u/.pgsqlmgr/config.yaml" (.parsed [])).1 = false ∧
    (validate_config_file "/home/u/.pgsqlmgr/config.yaml" (.parsed ["bad name"])).1 = false ∧
    (validate_config_file "/home/u/.pgsqlmgr/config.yaml" (.parsed ["bad name"])).2 ≠ [] := by
  have h1 := (validate_config_file_spec "/home/u/.pgsqlmgr/config.yaml" .missing).2.1 rfl
  have h2 := ((validate_config_file_spec "/home/u/.pgsqlmgr/config.yaml"
    (.parsed [])).2.2.2.2.2.2 [] rfl).1 rfl
  have h3 := ((validate_config_file_spec "/home/u/.pgsqlmgr/config.yaml"
    (.parsed ["bad name"])).2.2.2.2.2.2 ["bad name"] rfl).2
    ⟨"bad name", by simp, Or.inl ⟨' ', by decide, by decide⟩⟩
  exact ⟨h1.1, h1.2, h2.1, h3.1, h3.2⟩

/-- The installation table resolves exactly the seven supported identifiers,
up to Python `str.lower()`. -/
theorem get_installation_commands_isSome (os_type : String) :
    (get_installation_commands os_type).isSome = true ↔ pyLower os_type ∈ supported_os_ids := by
  simp only [get_installation_commands, supported_os_ids]
  split_ifs with h1 h2 h3 h4 h5 h6 h7 <;> simp_all

/-- C8: the per-OS installation table covers exactly `ubuntu`, `debian`,
`centos`, `rhel`, `fedora`, `macos` and `alpine`, matched case-insensitively;
for any other OS identifier the lookup returns `None` and
`_install_postgresql_by_os` fails with the `Unsupported operating system`
message before any remote command runs. -/
theorem installation_commands_os_coverage :
    (∀ os_type : String,
      (get_installation_commands os_type).isSome = true ↔ pyLower os_type ∈ supported_os_ids) ∧
    (∀ os1 os2 : String, pyLower os1 = pyLower os2 →
      get_installation_commands os1 = get_installation_commands os2) ∧
    (∀ (os_type os_version : String) (env : String → CmdResult),
      pyLower os_type ∉ supported_os_ids →
      install_postgresql_by_os os_type os_version env =
        ((false, "Unsupported operating system: " ++ os_type), [])) := by
  refine ⟨get_installation_commands_isSome, ?_, ?_⟩
  · intro os1 os2 h
    simp only [get_installation_commands]
    rw [h]
  · intro os_type os_version env hmem
    have hnone : get_installation_commands os_type = none := by
      rcases hsome : get_installation_commands os_type with _ | v
      · rfl
      · exact absurd ((get_installation_commands_isSome os_type).mp (by simp [hsome])) hmem
    simp [install_postgresql_by_os, hnone]

/-- C8 witness: `WINDOWS` is unsupported and rejected without running a remote
command, `Ubuntu` resolves case-insensitively, and its lowercasing is in the
supported list. -/
theorem installation_commands_os_coverage_witness :
    install_postgresql_by_os "WINDOWS" "11" (fun _ => ⟨0, "", ""⟩) =
      ((false, "Unsupported operating system: WINDOWS"), []) ∧
    get_installation_commands "UBUNTU" = get_installation_commands "Ubuntu" ∧
    (get_installation_commands "Ubuntu").isSome = true := by
  refine ⟨?_, ?_, ?_⟩
  · exact installation_commands_os_coverage.2.2 "WINDOWS" "11" (fun _ => ⟨0, "", ""⟩) (by decide)
  · exact installation_commands_os_coverage.2.1 "UBUNTU" "Ubuntu" (by decide)
  · exact (installation_commands_os_coverage.1 "Ubuntu").mpr (by decide)

/-- The timeout the specification assigns to each command category of the sync
workflow: 300 seconds for dump and restore commands, 120 for file transfer,
30 for `createdb`/`dropdb`/cleanup commands. -/
def claimed_timeout (cmd : String) : Option Nat :=
  if cmd = "pg_dump" || cmd = "ssh pg_dump" || cmd = "psql" || cmd = "ssh psql" then some 300
  else if cmd = "scp download" || cmd = "scp upload" then some 120
  else if cmd = "dropdb" || cmd = "createdb" || cmd = "ssh dropdb" || cmd = "ssh createdb" ||
      cmd = "ssh rm" then some 30
  else none

/-- Every command this step attempted was run with the timeout the
specification assigns to its category. -/
def trace_timeouts_claimed (out : StepOut) : Prop :=
  ∀ inv ∈ out.trace, claimed_timeout inv.cmdName = some inv.timeoutSeconds

/-- If any command this step attempted raised `TimeoutExpired`, the step
returned a failure result whose message says the operation timed out. -/
def timeout_failure_reported (out : StepOut) : Prop :=
  (∃ inv ∈ out.trace, inv.timedOut = true) →
    out.result.1 = false ∧ strContainsSub out.result.2 "timed out" = true

theorem trace_append_claimed {tr L : List Invocation}
    (h1 : ∀ inv ∈ tr, claimed_timeout inv.cmdName = some inv.timeoutSeconds)
    (h2 : ∀ inv ∈ L, claimed_timeout inv.cmdName = some inv.timeoutSeconds) :
    ∀ inv ∈ tr ++ L, claimed_timeout inv.cmdName = some inv.timeoutSeconds := by
  intro inv hinv
  rcases List.mem_append.mp hinv with h | h
  exacts [h1 _ h, h2 _ h]

theorem no_timeout_append {tr L : List Invocation}
    (h1 : ∀ inv ∈ tr, inv.timedOut = false) (h2 : ∀ inv ∈ L, inv.timedOut = false) :
    ∀ inv ∈ tr ++ L, inv.timedOut = false := by
  intro inv hinv
  rcases List.mem_append.mp hinv with h | h
  exacts [h1 _ h, h2 _ h]

theorem not_exists_timeout {T : List Invocation} (h : ∀ inv ∈ T, inv.timedOut = false) :
    ¬∃ inv ∈ T, inv.timedOut = true := by
  rintro ⟨inv, hinv, hto⟩
  rw [h _ hinv] at hto
  exact Bool.false_ne_true hto

/-- A step none of whose attempted commands timed out satisfies both timeout
properties. -/
theorem step_no_timeout {out : StepOut}
    (h1 : ∀ inv ∈ out.trace, claimed_timeout inv.cmdName = some inv.timeoutSeconds)
    (h2 : ∀ inv ∈ out.trace, inv.timedOut = false) :
    trace_timeouts_claimed out ∧ timeout_failure_reported out :=
  ⟨h1, fun hex => absurd hex (not_exists_timeout h2)⟩

/-- A step that failed with a `timed out` message satisfies both timeout
properties. -/
theorem step_timeout_reported {out : StepOut}
    (h1 : ∀ inv ∈ out.trace, claimed_timeout inv.cmdName = some inv.timeoutSeconds)
    (hres : out.result.1 = false)
    (hmsg : strContainsSub out.result.2 "timed out" = true) :
    trace_timeouts_claimed out ∧ timeout_failure_reported out :=
  ⟨h1, fun _ => ⟨hres, hmsg⟩⟩

theorem timed_out_msg_ssh_dump :
    strContainsSub "SSH database dump timed out" "timed out" = true := by decide

theorem timed_out_msg_upload :
    strContainsSub "File upload timed out" "timed out" = true := by decide

theorem timed_out_msg_ssh_restore :
    strContainsSub "SSH database restore timed out (this may indicate authentication or connection issues)"
      "timed out" = true := by decide

/-- The function `_create_local_dump` attempts no command at all (its `AttributeError` on
`password` fires first), so the timeout properties hold vacuously. -/
theorem create_local_dump_timeout_spec (src : LocalHost) (db file : String)
    (d s : Bool) (o : RunOutcome) :
    trace_timeouts_claimed (create_local_dump src db file d s o) ∧
    timeout_failure_reported (create_local_dump src db file d s o) := by
  refine step_no_timeout ?_ ?_ <;> simp [create_local_dump, LocalHost.getattr]

/-- The function `_restore_local_dump` attempts no command at all (its `AttributeError` on
`password` fires first), so the timeout properties hold vacuously. -/
theorem restore_local_dump_timeout_spec (dst : LocalHost) (db file : String)
    (drop : Bool) (env : LocalRestoreEnv) :
    trace_timeouts_claimed (restore_local_dump dst db file drop env) ∧
    timeout_failure_reported (restore_local_dump dst db file drop env) := by
  refine step_no_timeout ?_ ?_ <;> simp [restore_local_dump, LocalHost.getattr]

theorem create_ssh_dump_timeout_spec (src : SSHHost) (db file : String)
    (d s : Bool) (env : SshDumpEnv) :
    trace_timeouts_claimed (create_ssh_dump src db file d s env) ∧
    timeout_failure_reported (create_ssh_dump src db file d s env) := by
  obtain ⟨o1, o2, o3⟩ := env
  rcases o1 with r1 | ⟨⟨m⟩ | ⟨m⟩ | ⟨m⟩ | ⟨m⟩ | ⟨m⟩⟩
  · by_cases h1 : r1.returncode ≠ 0
    · simp [create_ssh_dump, h1]
      exact step_no_timeout (by simp [claimed_timeout]) (by simp [Invocation.timedOut])
    · rcases o2 with r2 | ⟨⟨m⟩ | ⟨m⟩ | ⟨m⟩ | ⟨m⟩ | ⟨m⟩⟩
      · by_cases h2 : r2.returncode ≠ 0
        · simp [create_ssh_dump, h1, h2]
          exact step_no_timeout (by simp [claimed_timeout]) (by simp [Invocation.timedOut])
        · rcases o3 with r3 | ⟨⟨m⟩ | ⟨m⟩ | ⟨m⟩ | ⟨m⟩ | ⟨m⟩⟩ <;>
            simp [create_ssh_dump, h1, h2]
          · exact step_no_timeout (by simp [claimed_timeout]) (by simp [Invocation.timedOut])
          · exact step_no_timeout (by simp [claimed_timeout]) (by simp [Invocation.timedOut])
          · exact step_no_timeout (by simp [claimed_timeout]) (by simp [Invocation.timedOut])
          · exact step_timeout_reported (by simp [claimed_timeout]) rfl timed_out_msg_ssh_dump
          · exact step_no_timeout (by simp [claimed_timeout]) (by simp [Invocation.timedOut])
          · exact step_no_timeout (by simp [claimed_timeout]) (by simp [Invocation.timedOut])
      · simp [create_ssh_dump, h1]
        exact step_no_timeout (by simp [claimed_timeout]) (by simp [Invocation.timedOut])
      · simp [create_ssh_dump, h1]
        exact step_no_timeout (by simp [claimed_timeout]) (by simp [Invocation.timedOut])
      · simp [create_ssh_dump, h1]
        exact step_timeout_reported (by simp [claimed_timeout]) rfl timed_out_msg_ssh_dump
      · simp [create_ssh_dump, h1]
        exact step_no_timeout (by simp [claimed_timeout]) (by simp [Invocation.timedOut])
      · simp [create_ssh_dump, h1]
        exact step_no_timeout (by simp [claimed_timeout]) (by simp [Invocation.timedOut])
  · exact step_no_timeout (by simp [create_ssh_dump, claimed_timeout])
      (by simp [create_ssh_dump, Invocation.timedOut])
  · exact step_no_timeout (by simp [create_ssh_dump, claimed_timeout])
      (by simp [create_ssh_dump, Invocation.timedOut])
  · exact step_timeout_reported (by simp [create_ssh_dump, claimed_timeout]) rfl
      timed_out_msg_ssh_dump
  · exact step_no_timeout (by simp [create_ssh_dump, claimed_timeout])
      (by simp [create_ssh_dump, Invocation.timedOut])
  · exact step_no_timeout (by simp [create_ssh_dump, claimed_timeout])
      (by simp [create_ssh_dump, Invocation.timedOut])

theorem transfer_dump_file_timeout_spec (source destination : HostConfig) (file : String)
    (o : RunOutcome) :
    trace_timeouts_claimed (transfer_dump_file source destination file o) ∧
    timeout_failure_reported (transfer_dump_file source destination file o) := by
  cases destination with
  | localHost d =>
    cases source <;>
      exact step_no_timeout (by simp [transfer_dump_file, claimed_timeout])
        (by simp [transfer_dump_file, Invocation.timedOut])
  | cloudHost =>
    cases source <;>
      exact step_no_timeout (by simp [transfer_dump_file, claimed_timeout])
        (by simp [transfer_dump_file, Invocation.timedOut])
  | sshHost dst =>
    cases source <;> rcases o with r | ⟨⟨m⟩ | ⟨m⟩ | ⟨m⟩ | ⟨m⟩ | ⟨m⟩⟩
    all_goals
      first
        | exact step_timeout_reported (by simp [transfer_dump_file, claimed_timeout]) rfl
            timed_out_msg_upload
        | (by_cases h : r.returncode ≠ 0 <;>
            exact step_no_timeout (by simp [transfer_dump_file, claimed_timeout, h])
              (by simp [transfer_dump_file, Invocation.timedOut, h]))
        | exact step_no_timeout (by simp [transfer_dump_file, claimed_timeout])
            (by simp [transfer_dump_file, Invocation.timedOut])

theorem restore_ssh_psql_timeout_spec (db : String) (env : SshRestoreEnv)
    (tr : List Invocation)
    (htr1 : ∀ inv ∈ tr, claimed_timeout inv.cmdName = some inv.timeoutSeconds)
    (htr2 : ∀ inv ∈ tr, inv.timedOut = false) :
    trace_timeouts_claimed (restore_ssh_psql db env tr) ∧
    timeout_failure_reported (restore_ssh_psql db env tr) := by
  obtain ⟨od, oc, op, orm⟩ := env
  rcases op with rp | ⟨⟨m⟩ | ⟨m⟩ | ⟨m⟩ | ⟨m⟩ | ⟨m⟩⟩
  · rcases orm with rr | ⟨⟨m⟩ | ⟨m⟩ | ⟨m⟩ | ⟨m⟩ | ⟨m⟩⟩
    · by_cases h : rp.returncode = 0 <;> simp [restore_ssh_psql, h] <;>
        exact step_no_timeout (trace_append_claimed htr1 (by simp [claimed_timeout]))
          (no_timeout_append htr2 (by simp [Invocation.timedOut]))
    · exact step_no_timeout (trace_append_claimed htr1 (by simp [claimed_timeout]))
        (no_timeout_append htr2 (by simp [Invocation.timedOut]))
    · exact step_no_timeout (trace_append_claimed htr1 (by simp [claimed_timeout]))
        (no_timeout_append htr2 (by simp [Invocation.timedOut]))
    · exact step_timeout_reported (trace_append_claimed htr1 (by simp [claimed_timeout])) rfl
        timed_out_msg_ssh_restore
    · exact step_no_timeout (trace_append_claimed htr1 (by simp [claimed_timeout]))
        (no_timeout_append htr2 (by simp [Invocation.timedOut]))
    · exact step_no_timeout (trace_append_claimed htr1 (by simp [claimed_timeout]))
        (no_timeout_append htr2 (by simp [Invocation.timedOut]))
  · exact step_no_timeout (trace_append_claimed htr1 (by simp [claimed_timeout]))
      (no_timeout_append htr2 (by simp [Invocation.timedOut]))
  · exact step_no_timeout (trace_append_claimed htr1 (by simp [claimed_timeout]))
      (no_timeout_append htr2 (by simp [Invocation.timedOut]))
  · exact step_timeout_reported (trace_append_claimed htr1 (by simp [claimed_timeout])) rfl
      timed_out_msg_ssh_restore
  · exact step_no_timeout (trace_append_claimed htr1 (by simp [claimed_timeout]))
      (no_timeout_append htr2 (by simp [Invocation.timedOut]))
  · exact step_no_timeout (trace_append_claimed htr1 (by simp [claimed_timeout]))
      (no_timeout_append htr2 (by simp [Invocation.timedOut]))

theorem restore_ssh_createdb_timeout_spec (db : String) (env : SshRestoreEnv)
    (tr : List Invocation)
    (htr1 : ∀ inv ∈ tr, claimed_timeout inv.cmdName = some inv.timeoutSeconds)
    (htr2 : ∀ inv ∈ tr, inv.timedOut = false) :
    trace_timeouts_claimed (restore_ssh_createdb db env tr) ∧
    timeout_failure_reported (restore_ssh_createdb db env tr) := by
  rcases hc : env.ssh_createdb with rc | ⟨⟨m⟩ | ⟨m⟩ | ⟨m⟩ | ⟨m⟩ | ⟨m⟩⟩ <;>
    simp only [restore_ssh_createdb, hc]
  · split_ifs
    · exact step_no_timeout (trace_append_claimed htr1 (by simp [claimed_timeout, hc]))
        (no_timeout_append htr2 (by simp [Invocation.timedOut, hc]))
    · exact restore_ssh_psql_timeout_spec db env _
        (trace_append_claimed htr1 (by simp [claimed_timeout, hc]))
        (no_timeout_append htr2 (by simp [Invocation.timedOut, hc]))
    · exact restore_ssh_psql_timeout_spec db env _
        (trace_append_claimed htr1 (by simp [claimed_timeout, hc]))
        (no_timeout_append htr2 (by simp [Invocation.timedOut, hc]))
  · exact step_no_timeout (trace_append_claimed htr1 (by simp [claimed_timeout, hc]))
      (no_timeout_append htr2 (by simp [Invocation.timedOut, hc]))
  · exact step_no_timeout (trace_append_claimed htr1 (by simp [claimed_timeout, hc]))
      (no_timeout_append htr2 (by simp [Invocation.timedOut, hc]))
  · exact step_timeout_reported (trace_append_claimed htr1 (by simp [claimed_timeout, hc])) rfl
      timed_out_msg_ssh_restore
  · exact step_no_timeout (trace_append_claimed htr1 (by simp [claimed_timeout, hc]))
      (no_timeout_append htr2 (by simp [Invocation.timedOut, hc]))
  · exact step_no_timeout (trace_append_claimed htr1 (by simp [claimed_timeout, hc]))
      (no_timeout_append htr2 (by simp [Invocation.timedOut, hc]))

theorem restore_ssh_dump_timeout_spec (dst : SSHHost) (db file : String)
    (drop : Bool) (env : SshRestoreEnv) :
    trace_timeouts_claimed (restore_ssh_dump dst db file drop env) ∧
    timeout_failure_reported (restore_ssh_dump dst db file drop env) := by
  cases drop with
  | false =>
    simp only [restore_ssh_dump, if_neg (by simp : ¬(false = true))]
    exact restore_ssh_createdb_timeout_spec db env [] (by simp) (by simp)
  | true =>
    rcases hd : env.ssh_dropdb with rd | ⟨⟨m⟩ | ⟨m⟩ | ⟨m⟩ | ⟨m⟩ | ⟨m⟩⟩ <;>
      simp only [restore_ssh_dump, if_pos rfl, hd]
    · exact restore_ssh_createdb_timeout_spec db env _
        (by simp [claimed_timeout, hd]) (by simp [Invocation.timedOut, hd])
    · exact step_no_timeout (by simp [claimed_timeout, hd]) (by simp [Invocation.timedOut, hd])
    · exact step_no_timeout (by simp [claimed_timeout, hd]) (by simp [Invocation.timedOut, hd])
    · exact step_timeout_reported (by simp [claimed_timeout, hd]) rfl timed_out_msg_ssh_restore
    · exact step_no_timeout (by simp [claimed_timeout, hd]) (by simp [Invocation.timedOut, hd])
    · exact step_no_timeout (by simp [claimed_timeout, hd]) (by simp [Invocation.timedOut, hd])

/-- C6: every external command the sync workflow step functions attempt is run
with the timeout the specification assigns to its category (300 seconds for
dump/restore, 120 for file transfer, 30 for `createdb`/`dropdb`/cleanup), and
whenever such a command raises `TimeoutExpired` the enclosing step returns a
failure result whose message says the operation timed out instead of
propagating the exception. -/
theorem sync_commands_have_timeouts :
    (∀ (src : LocalHost) (db file : String) (d s : Bool) (o : RunOutcome),
      trace_timeouts_claimed (create_local_dump src db file d s o) ∧
      timeout_failure_reported (create_local_dump src db file d s o)) ∧
    (∀ (src : SSHHost) (db file : String) (d s : Bool) (env : SshDumpEnv),
      trace_timeouts_claimed (create_ssh_dump src db file d s env) ∧
      timeout_failure_reported (create_ssh_dump src db file d s env)) ∧
    (∀ (source destination : HostConfig) (file : String) (o : RunOutcome),
      trace_timeouts_claimed (transfer_dump_file source destination file o) ∧
      timeout_failure_reported (transfer_dump_file source destination file o)) ∧
    (∀ (dst : LocalHost) (db file : String) (drop : Bool) (env : LocalRestoreEnv),
      trace_timeouts_claimed (restore_local_dump dst db file drop env) ∧
      timeout_failure_reported (restore_local_dump dst db file drop env)) ∧
    (∀ (dst : SSHHost) (db file : String) (drop : Bool) (env : SshRestoreEnv),
      trace_timeouts_claimed (restore_ssh_dump dst db file drop env) ∧
      timeout_failure_reported (restore_ssh_dump dst db file drop env)) :=
  ⟨create_local_dump_timeout_spec, create_ssh_dump_timeout_spec,
    transfer_dump_file_timeout_spec, restore_local_dump_timeout_spec,
    restore_ssh_dump_timeout_spec⟩

/-- C6 witness: when the `scp` upload of the transfer step times out, the step
fails and its message says the upload timed out. -/
theorem sync_commands_have_timeouts_witness :
    (transfer_dump_file (.localHost { superuser := "postgres" })
      (.sshHost { superuser := "postgres", ssh_config := "prod" }) "/tmp/f.sql"
      (.raised (.timeoutExpired "Command timed out after 120 seconds"))).result.1 = false ∧
    strContainsSub (transfer_dump_file (.localHost { superuser := "postgres" })
      (.sshHost { superuser := "postgres", ssh_config := "prod" }) "/tmp/f.sql"
      (.raised (.timeoutExpired "Command timed out after 120 seconds"))).result.2
      "timed out" = true := by
  have h := (sync_commands_have_timeouts.2.2.1 (.localHost { superuser := "postgres" })
    (.sshHost { superuser := "postgres", ssh_config := "prod" }) "/tmp/f.sql"
    (.raised (.timeoutExpired "Command timed out after 120 seconds"))).2
  exact h ⟨⟨"scp upload", 120, .raised (.timeoutExpired "Command timed out after 120 seconds")⟩,
    by simp [transfer_dump_file], by decide⟩

end Pgsqlmgr
